import Mathlib

/-!
Verification of the sftp-to-papertrail log shipper (src/index.js).

The program fetches the previous snapshot of a remote log file from durable
storage and the current contents over SFTP, diffs them line-by-line, forwards
the new lines to a collector and persists the new snapshot.  The development
below is a shallow embedding: JavaScript strings become `String`, possibly
`undefined` values become `Option`, promise outcomes become `Except` (plus an
explicit settle time where ordering matters), and each relevant source
function becomes a Lean function of the outcomes of its external calls.
-/

/-- JavaScript truthiness of a string: truthy exactly when non-empty. -/
def jsTruthyStr (s : String) : Bool := s != ""

/-- JavaScript truthiness of a possibly-undefined string: `undefined` is
falsy, and so is the empty string. -/
def jsTruthyOptStr : Option String → Bool
  | none => false
  | some s => jsTruthyStr s

/-- Splitting a character list at every newline: the semantics of the
JavaScript expression `s.split('\n')` on the character level.  An empty
input yields one empty piece; a trailing newline yields a trailing empty
piece. -/
def splitNlChars : List Char → List (List Char)
  | [] => [[]]
  | '\n' :: cs => [] :: splitNlChars cs
  | c :: cs =>
    match splitNlChars cs with
    | [] => [[c]]
    | r :: rs => (c :: r) :: rs

/-- JavaScript `s.split('\n')`. -/
def splitNl (s : String) : List String :=
  (splitNlChars s.data).map (fun cs => String.mk cs)

/-- JavaScript `arr.join('\n')`. -/
def joinNl : List String → String
  | [] => ""
  | [s] => s
  | s :: rest => s ++ "\n" ++ joinNl rest

/-- The whitespace characters JavaScript `trim()` strips, restricted to the
ASCII ones: space, tab, newline, carriage return, vertical tab, form feed. -/
def jsWhitespace (c : Char) : Bool :=
  c = ' ' || c = '\t' || c = '\n' || c = '\r' || c = '\x0b' || c = '\x0c'

/-- JavaScript `s.trim()`: strip leading and trailing whitespace. -/
def jsTrim (s : String) : String :=
  String.mk (((s.data.dropWhile jsWhitespace).reverse.dropWhile jsWhitespace).reverse)

/-- Embedding of `compareLogFiles` (src/index.js lines 232-255).  The old
contents may be `undefined` (the store fetch resolved with no value), hence
`Option String`.  The guard `if (!oldContents)` is JavaScript truthiness, so
a present-but-empty string takes the early-return branch as well.  The
source's `.filter(() => true)` calls are kept verbatim (they keep every
line), and `0 > oldLines.indexOf(line)` is exactly membership failure. -/
def compareLogFiles (oldContents : Option String) (newContents : String) : String :=
  if !(jsTruthyOptStr oldContents) then ""
  else
    let oldLines := (splitNl (oldContents.getD "")).filter (fun _ => true)
    let newLines := (splitNl newContents).filter (fun _ => true)
    let difference := newLines.filter (fun line => !(oldLines.contains line))
    jsTrim (joinNl difference)

/-- The diff as the specification words it (claim C1): the lines of `new`
whose exact text does not appear anywhere in `old`'s line sequence, in
`new`'s original order (each occurrence kept), joined with newline, with
outer whitespace trimmed. -/
def specDiff (old new : String) : String :=
  jsTrim (joinNl ((splitNl new).filter (fun line => !((splitNl old).contains line))))

theorem filter_trivial_true (l : List String) : l.filter (fun _ => true) = l := by
  induction l with
  | nil => rfl
  | cons x xs ih => simp [List.filter, ih]

/-- C1: for every non-empty old snapshot and every new snapshot,
`compareLogFiles` returns exactly the lines of the new snapshot whose exact
text appears nowhere in the old snapshot's line sequence, in the new
snapshot's order with duplicates kept per occurrence, joined with newline
and outer whitespace trimmed. -/
theorem c1_compareLogFiles_matches_spec (old new : String) (h : old ≠ "") :
    compareLogFiles (some old) new = specDiff old new := by
  have hb : (old == "") = false := by
    simp [h]
  simp [compareLogFiles, specDiff, jsTruthyOptStr, jsTruthyStr, hb, filter_trivial_true]
  intro h'
  exact absurd h' h

/-- Witness for C1 at the spec's Scenario A input. -/
theorem c1_witness :
    compareLogFiles (some "a\nb\nc") "a\nb\nc\nd" = specDiff "a\nb\nc" "a\nb\nc\nd" ∧
    compareLogFiles (some "a\nb\nc") "a\nb\nc\nd" = "d" :=
  ⟨c1_compareLogFiles_matches_spec "a\nb\nc" "a\nb\nc\nd" (by decide), by decide⟩

/-- C4: with an Absent old snapshot the diff is always the empty string,
never the full new contents. -/
theorem c4_absent_old_yields_empty (newContents : String) :
    compareLogFiles none newContents = "" := rfl

/-- C7 counterexample: with a present-but-empty old snapshot the diff of
`"x"` is `""` (the early-return branch for a falsy old value), not `"x"` as
the claim states. -/
theorem c7_counterexample :
    compareLogFiles (some "") "x" = "" ∧ (compareLogFiles (some "") "x" == "x") = false :=
  ⟨rfl, rfl⟩

/-- C7 amended: a present-but-empty old snapshot is treated exactly like an
Absent one by the diff: the early-return branch fires (JavaScript truthiness
conflates the two) and the result is empty for every new snapshot. -/
theorem c7_empty_old_behaves_as_absent (newContents : String) :
    compareLogFiles (some "") newContents = compareLogFiles none newContents ∧
    compareLogFiles (some "") newContents = "" :=
  ⟨rfl, rfl⟩

/-- Outcome of a JavaScript promise once settled. -/
inductive POutcome (α : Type) where
  | resolved (value : α)
  | rejected (msg : String)

/-- Whether a settled promise outcome is a resolution (not a rejection). -/
def isResolved {α : Type} : POutcome α → Bool
  | .resolved _ => true
  | .rejected _ => false

/-- Result of `getLogFileStore` (src/index.js lines 185-221): the promise's
outcome plus whether the console warning was emitted. -/
structure StoreFetch where
  outcome : POutcome (Option String)
  warned : Bool

/-- Embedding of `getLogFileStore` as a function of the S3 `getObject`
outcome.  The promise executor only ever calls `resolve`: on an S3 error it
prints a warning and resolves with no value (`undefined`, modelled `none`);
on success it resolves with the UTF-8 decoded body. -/
def getLogFileStore (storeRead : Except String String) : StoreFetch :=
  match storeRead with
  | .error _ => { outcome := .resolved none, warned := true }
  | .ok body => { outcome := .resolved (some body), warned := false }

/-- Outcomes of the external services during one run: the S3 read, the KMS
decrypt, the SFTP connect, the SFTP file read (the concatenated stream
contents on success), the S3 write and the Papertrail send, plus the settle
times of the two final operations (for the fan-in ordering). -/
structure World where
  storeRead : Except String String
  decryptRes : Except String String
  connectRes : Except String Unit
  readRes : Except String String
  saveRes : Except String Unit
  forwardRes : Except String Unit
  saveSettleTime : Nat
  forwardSettleTime : Nat

/-- Trace of one execution of `getLogFileLatest` (src/index.js lines
140-177): the promise's result, which steps were issued, and whether
`client.end()` was reached.  The source calls `client.end()` only inside the
stream's end handler (line 164); every rejection path (decrypt, connect,
get) lands in the final `catch` (line 172), which rejects without ending the
session. -/
structure FetchTrace where
  result : Except String String
  connectIssued : Bool
  readIssued : Bool
  sessionEnded : Bool

/-- Embedding of `getLogFileLatest`: decrypt, then connect, then read; the
stream's chunks are concatenated (modelled as the single string `raw`) and
trimmed on success. -/
def getLogFileLatest (w : World) : FetchTrace :=
  match w.decryptRes with
  | .error e =>
      { result := .error e, connectIssued := false, readIssued := false, sessionEnded := false }
  | .ok _ =>
    match w.connectRes with
    | .error e =>
        { result := .error e, connectIssued := true, readIssued := false, sessionEnded := false }
    | .ok _ =>
      match w.readRes with
      | .error e =>
          { result := .error e, connectIssued := true, readIssued := true, sessionEnded := false }
      | .ok raw =>
          { result := .ok (jsTrim raw), connectIssued := true, readIssued := true,
            sessionEnded := true }

/-- JavaScript `Promise.all` on two settled promises, with explicit settle
times: it fulfils with both values once the later one settles, and it
rejects with the chronologically first rejection as soon as that rejection
settles — fulfilment of the other input is not waited for, and on a tie the
first element of the array wins. -/
def promiseAll2 {α β : Type} (p : Nat × Except String α) (q : Nat × Except String β) :
    Nat × Except String (α × β) :=
  match p, q with
  | (t1, .ok a), (t2, .ok b) => (max t1 t2, .ok (a, b))
  | (t1, .error e), (_, .ok _) => (t1, .error e)
  | (_, .ok _), (t2, .error e) => (t2, .error e)
  | (t1, .error e1), (t2, .error e2) =>
      if t2 < t1 then (t2, .error e2) else (t1, .error e1)

/-- Observable outcome of one invocation of `exports.handler` (src/index.js
lines 34-70): which operations were issued, the values flowing through the
deciding stage, the callback's result, and the persisted snapshot after the
run (`finalStore`), given the prior persisted snapshot `store0`. -/
structure RunOutcome where
  storeFetchIssued : Bool
  fetchTrace : FetchTrace
  diffPerformed : Bool
  oldContents : Option String
  newLogLines : String
  saveIssued : Bool
  forwardIssued : Bool
  callbackRes : Except String Unit
  finalStore : Option String

/-- Embedding of `exports.handler`.  Both fetch promises are pushed
synchronously (lines 41-42) before anything settles, so the store fetch is
always issued.  If the remote fetch rejects, `Promise.all` rejects (the
store fetch never rejects) and the catch reports that error with nothing
else attempted.  Otherwise the deciding stage runs: save when the batch is
truthy or the old contents are falsy, forward when the batch is truthy; the
issued operations are combined with `Promise.all` (line 61). -/
def handler (w : World) (store0 : Option String) : RunOutcome :=
  let sfetch := getLogFileStore w.storeRead
  let ftrace := getLogFileLatest w
  match ftrace.result with
  | .error e =>
      { storeFetchIssued := true, fetchTrace := ftrace, diffPerformed := false,
        oldContents := none, newLogLines := "", saveIssued := false,
        forwardIssued := false, callbackRes := .error e, finalStore := store0 }
  | .ok newContents =>
    match sfetch.outcome with
    | .rejected e =>
        { storeFetchIssued := true, fetchTrace := ftrace, diffPerformed := false,
          oldContents := none, newLogLines := "", saveIssued := false,
          forwardIssued := false, callbackRes := .error e, finalStore := store0 }
    | .resolved oldC =>
        let newLogLines := compareLogFiles oldC newContents
        let doSave := jsTruthyStr newLogLines || !(jsTruthyOptStr oldC)
        let doForward := jsTruthyStr newLogLines
        let sendRes : Except String Unit :=
          if doSave then
            if doForward then
              match (promiseAll2 (w.saveSettleTime, w.saveRes)
                  (w.forwardSettleTime, w.forwardRes)).2 with
              | .ok _ => .ok ()
              | .error e => .error e
            else w.saveRes
          else if doForward then w.forwardRes else .ok ()
        { storeFetchIssued := true, fetchTrace := ftrace, diffPerformed := true,
          oldContents := oldC, newLogLines := newLogLines,
          saveIssued := doSave, forwardIssued := doForward,
          callbackRes := sendRes,
          finalStore :=
            if doSave then
              match w.saveRes with
              | .ok _ => some newContents
              | .error _ => store0
            else store0 }

/-- World for the C2 counterexample: the store holds a present-but-empty
snapshot and the remote file reads "x". -/
def w2 : World :=
  { storeRead := .ok "", decryptRes := .ok "pw", connectRes := .ok (),
    readRes := .ok "x", saveRes := .ok (), forwardRes := .ok (),
    saveSettleTime := 0, forwardSettleTime := 0 }

/-- C2 counterexample: an old snapshot WAS obtained (the store read
succeeded, with empty contents) and the computed batch is empty, yet the
save is invoked — the source's guard `newLogLines || !data[OLD]` tests
JavaScript truthiness, not absence. -/
theorem c2_counterexample :
    (handler w2 (some "")).oldContents = some "" ∧
    (handler w2 (some "")).newLogLines = "" ∧
    (handler w2 (some "")).saveIssued = true ∧
    (handler w2 (some "")).forwardIssued = false :=
  ⟨rfl, rfl, rfl, rfl⟩

/-- C2 amended: in every run that reaches the deciding stage, the save is
invoked iff the batch is non-empty or the obtained old snapshot is falsy
(absent or the empty string), and forwarding is invoked iff the batch is
non-empty. -/
theorem c2_deciding_rule (w : World) (s0 : Option String)
    (h : (handler w s0).diffPerformed = true) :
    ((handler w s0).saveIssued = true ↔
      ((handler w s0).newLogLines ≠ "" ∨ (handler w s0).oldContents = none ∨
        (handler w s0).oldContents = some "")) ∧
    ((handler w s0).forwardIssued = true ↔ (handler w s0).newLogLines ≠ "") := by
  obtain ⟨sr, dr, cr, rr, sv, fr, t1, t2⟩ := w
  cases sr <;> cases dr <;> cases cr <;> cases rr <;>
    simp_all [handler, getLogFileLatest, getLogFileStore, jsTruthyStr, jsTruthyOptStr]

/-- World for the C2 witness: the spec's Scenario A. -/
def wA : World :=
  { storeRead := .ok "a\nb\nc", decryptRes := .ok "pw", connectRes := .ok (),
    readRes := .ok "a\nb\nc\nd", saveRes := .ok (), forwardRes := .ok (),
    saveSettleTime := 0, forwardSettleTime := 1 }

/-- Witness for C2 at the spec's Scenario A: new lines found, so both save
and forward are invoked. -/
theorem c2_witness :
    (handler wA (some "a\nb\nc")).saveIssued = true ∧
    (handler wA (some "a\nb\nc")).forwardIssued = true := by
  have hmain := c2_deciding_rule wA (some "a\nb\nc") rfl
  exact ⟨hmain.1.mpr (Or.inl (by decide)), hmain.2.mpr (by decide)⟩

/-- C3 counterexample: the save rejects at time 1 while the forward fulfils
at time 5; `Promise.all` settles — and the handler's callback therefore
reports failure — at time 1, strictly before the forwarding operation has
settled, so the orchestrator does not wait for both outcomes. -/
theorem c3_counterexample :
    (promiseAll2 ((1 : Nat), (Except.error "save failed" : Except String Unit))
        ((5 : Nat), (Except.ok () : Except String Unit))).1 = 1 ∧
    (promiseAll2 ((1 : Nat), (Except.error "save failed" : Except String Unit))
        ((5 : Nat), (Except.ok () : Except String Unit))).2 =
      Except.error "save failed" ∧
    (1 : Nat) < 5 :=
  ⟨rfl, rfl, by decide⟩

/-- Whether a settled result is a fulfilment. -/
def isOkB {α : Type} : Except String α → Bool
  | .ok _ => true
  | .error _ => false

/-- C3 amended: the fan-in over the two issued operations (line 61's
`Promise.all`) reports failure whenever either operation fails and surfaces
the chronologically first error, but it settles at the time of that first
rejection — it does not wait for the other operation to settle before the
failure is reported; only the all-success case waits for both. -/
theorem c3_fan_in_first_rejection (t1 t2 : Nat) (e1 e2 : String)
    (a b : Except String Unit) :
    (promiseAll2 (t1, (Except.ok () : Except String Unit))
        (t2, (Except.ok () : Except String Unit)) = (max t1 t2, Except.ok ((), ()))) ∧
    (promiseAll2 (t1, (Except.error e1 : Except String Unit))
        (t2, (Except.ok () : Except String Unit)) = (t1, Except.error e1)) ∧
    (promiseAll2 (t1, (Except.ok () : Except String Unit))
        (t2, (Except.error e2 : Except String Unit)) = (t2, Except.error e2)) ∧
    (promiseAll2 (t1, (Except.error e1 : Except String Unit))
        (t2, (Except.error e2 : Except String Unit)) =
      if t2 < t1 then (t2, Except.error e2) else (t1, Except.error e1)) ∧
    (isOkB (promiseAll2 (t1, a) (t2, b)).2 = (isOkB a && isOkB b)) := by
  refine ⟨rfl, rfl, rfl, rfl, ?_⟩
  cases a <;> cases b <;> by_cases hlt : t2 < t1 <;> simp [promiseAll2, hlt, isOkB]

/-- C5: whenever the remote log fetch fails, the handler reports that fetch
error; the diff is not performed, neither the save nor the forwarding is
issued, and the previously persisted snapshot is unchanged. -/
theorem c5_fetch_failure_aborts (w : World) (s0 : Option String) (e : String)
    (h : (getLogFileLatest w).result = Except.error e) :
    (handler w s0).callbackRes = Except.error e ∧
    (handler w s0).diffPerformed = false ∧
    (handler w s0).saveIssued = false ∧
    (handler w s0).forwardIssued = false ∧
    (handler w s0).finalStore = s0 := by
  obtain ⟨sr, dr, cr, rr, sv, fr, t1, t2⟩ := w
  cases sr <;> cases dr <;> cases cr <;> cases rr <;>
    simp_all [handler, getLogFileLatest, getLogFileStore]

/-- World for the C5 witness: the SFTP connection is refused. -/
def w5 : World :=
  { storeRead := .ok "a\nb", decryptRes := .ok "pw",
    connectRes := .error "connect ECONNREFUSED", readRes := .ok "a\nb",
    saveRes := .ok (), forwardRes := .ok (), saveSettleTime := 0, forwardSettleTime := 0 }

/-- Witness for C5: with the connection refused, the run reports the fetch
error, performs no diff, issues nothing and leaves the store unchanged. -/
theorem c5_witness :
    (handler w5 (some "a\nb")).callbackRes = Except.error "connect ECONNREFUSED" ∧
    (handler w5 (some "a\nb")).diffPerformed = false ∧
    (handler w5 (some "a\nb")).saveIssued = false ∧
    (handler w5 (some "a\nb")).forwardIssued = false ∧
    (handler w5 (some "a\nb")).finalStore = some "a\nb" :=
  c5_fetch_failure_aborts w5 (some "a\nb") "connect ECONNREFUSED" rfl

/-- C6: every store read error resolves to Absent with the warning surfaced;
the store fetch never rejects, whatever the read outcome; and a run whose
store read failed but whose remote fetch succeeded still reaches the
deciding stage and issues the save, so the current log can still be
stored. -/
theorem c6_store_error_resolves_absent (e d raw : String)
    (r : Except String String) (sv fr : Except String Unit)
    (t1 t2 : Nat) (s0 : Option String) :
    getLogFileStore (Except.error e) = { outcome := .resolved none, warned := true } ∧
    isResolved (getLogFileStore r).outcome = true ∧
    (handler { storeRead := Except.error e, decryptRes := Except.ok d,
               connectRes := Except.ok (), readRes := Except.ok raw,
               saveRes := sv, forwardRes := fr,
               saveSettleTime := t1, forwardSettleTime := t2 } s0).diffPerformed = true ∧
    (handler { storeRead := Except.error e, decryptRes := Except.ok d,
               connectRes := Except.ok (), readRes := Except.ok raw,
               saveRes := sv, forwardRes := fr,
               saveSettleTime := t1, forwardSettleTime := t2 } s0).saveIssued = true := by
  refine ⟨rfl, ?_, ?_, ?_⟩
  · cases r <;> rfl
  · simp [handler, getLogFileLatest, getLogFileStore]
  · simp [handler, getLogFileLatest, getLogFileStore, jsTruthyOptStr]

/-- World for the C8 counterexample and witness: the KMS decrypt fails. -/
def w8 : World :=
  { storeRead := .ok "old line", decryptRes := .error "KMS decrypt failure",
    connectRes := .ok (), readRes := .ok "new line",
    saveRes := .ok (), forwardRes := .ok (), saveSettleTime := 0, forwardSettleTime := 0 }

/-- C8 counterexample: the decrypt fails, yet the snapshot-store fetch has
been issued — the handler pushes both fetch promises synchronously (lines
41-42) before the decrypt outcome can be known, so a decrypt failure cannot
prevent the store fetch from being issued. -/
theorem c8_counterexample :
    w8.decryptRes = Except.error "KMS decrypt failure" ∧
    (handler w8 (some "old line")).storeFetchIssued = true :=
  ⟨rfl, rfl⟩

/-- C8 amended: whenever the secret decryption fails, the run reports the
decrypt error and nothing downstream of the decrypt happens — the SFTP
connect and read are never issued, no save and no forwarding is issued, and
the persisted snapshot is unchanged — but the snapshot-store fetch (a pure
read) has already been issued unconditionally at the start of the run. -/
theorem c8_decrypt_failure (w : World) (s0 : Option String) (e : String)
    (h : w.decryptRes = Except.error e) :
    (handler w s0).fetchTrace.connectIssued = false ∧
    (handler w s0).fetchTrace.readIssued = false ∧
    (handler w s0).saveIssued = false ∧
    (handler w s0).forwardIssued = false ∧
    (handler w s0).callbackRes = Except.error e ∧
    (handler w s0).finalStore = s0 ∧
    (handler w s0).storeFetchIssued = true := by
  obtain ⟨sr, dr, cr, rr, sv, fr, t1, t2⟩ := w
  cases sr <;> simp_all [handler, getLogFileLatest, getLogFileStore]

/-- Witness for C8 at the concrete failing-decrypt world. -/
theorem c8_witness :
    (handler w8 (some "old line")).fetchTrace.connectIssued = false ∧
    (handler w8 (some "old line")).fetchTrace.readIssued = false ∧
    (handler w8 (some "old line")).saveIssued = false ∧
    (handler w8 (some "old line")).forwardIssued = false ∧
    (handler w8 (some "old line")).callbackRes = Except.error "KMS decrypt failure" ∧
    (handler w8 (some "old line")).finalStore = some "old line" ∧
    (handler w8 (some "old line")).storeFetchIssued = true :=
  c8_decrypt_failure w8 (some "old line") "KMS decrypt failure" rfl

/-- World for C9: the SFTP connect succeeds but the file read fails. -/
def w9 : World :=
  { storeRead := .ok "old line", decryptRes := .ok "pw", connectRes := .ok (),
    readRes := .error "No such file", saveRes := .ok (), forwardRes := .ok (),
    saveSettleTime := 0, forwardSettleTime := 0 }

/-- C9 (code bug): when the connect succeeds but the read fails, the fetch
rejects without ever reaching `client.end()` — the only call site of the
session release is inside the stream's end handler, so this error exit path
leaves the session open, contradicting the claim that the session is
released on every exit path. -/
theorem c9_session_leak_on_read_failure :
    (getLogFileLatest w9).connectIssued = true ∧
    (getLogFileLatest w9).readIssued = true ∧
    (getLogFileLatest w9).result = Except.error "No such file" ∧
    (getLogFileLatest w9).sessionEnded = false :=
  ⟨rfl, rfl, rfl, rfl⟩

/-- A JavaScript value `getEnv` can return: environment variables are
strings, and the only non-string default the program supplies is the number
22 (DEFAULT_SFTP_PORT). -/
inductive JsVal where
  | str (s : String)
  | num (n : Int)

/-- JavaScript truthiness of such a value: a string is truthy when
non-empty, a number when non-zero. -/
def jsTruthyVal : JsVal → Bool
  | .str s => jsTruthyStr s
  | .num n => n != 0

/-- JavaScript truthiness of a possibly-omitted value. -/
def jsTruthyOptVal : Option JsVal → Bool
  | none => false
  | some v => jsTruthyVal v

/-- Embedding of `getEnv` (src/index.js lines 374-378): return the
environment value if truthy, else the default if truthy, else throw an
error naming the variable.  The environment value is `none` when the
variable is unset; the default is `none` when the second argument is
omitted. -/
def getEnv (envName : String) (envValue : Option String) (defaultValue : Option JsVal) :
    Except String JsVal :=
  if jsTruthyOptStr envValue then Except.ok (JsVal.str (envValue.getD ""))
  else if jsTruthyOptVal defaultValue then Except.ok (defaultValue.getD (JsVal.str ""))
  else Except.error ("Please set " ++ envName ++ ".")

/-- C10: `getEnv` returns the environment value exactly when it is a
non-empty string; any falsy environment value (unset, or set to the empty
string) behaves like an unset one; in that case a truthy supplied default
is returned; and the call throws — with a message naming the variable — iff
both the environment value and the default are falsy. -/
theorem c10_getEnv_contract (envName v : String) (envValue : Option String)
    (defaultValue : Option JsVal) (d : JsVal)
    (hv : v ≠ "") (henv : jsTruthyOptStr envValue = false)
    (hd : jsTruthyVal d = true) :
    getEnv envName (some v) defaultValue = Except.ok (JsVal.str v) ∧
    getEnv envName envValue defaultValue = getEnv envName none defaultValue ∧
    getEnv envName envValue (some d) = Except.ok d ∧
    (isOkB (getEnv envName envValue defaultValue) = jsTruthyOptVal defaultValue) ∧
    (jsTruthyOptVal defaultValue = false →
      getEnv envName envValue defaultValue =
        Except.error ("Please set " ++ envName ++ ".")) := by
  have hv' : jsTruthyOptStr (some v) = true := by
    simp [jsTruthyOptStr, jsTruthyStr, hv]
  have hn : jsTruthyOptStr none = false := rfl
  refine ⟨?_, ?_, ?_, ?_, ?_⟩
  · simp [getEnv, hv']
  · simp [getEnv, henv, hn]
  · simp [getEnv, henv, jsTruthyOptVal, hd]
  · cases hdef : jsTruthyOptVal defaultValue <;> simp [getEnv, henv, hdef, isOkB]
  · intro hdef
    simp [getEnv, henv, hdef]

/-- Witness for C10: a set variable is returned as-is; a variable set to
the empty string falls back to the numeric default 22; a fully missing
required variable throws the naming error. -/
theorem c10_witness :
    getEnv "STP_SFTP_HOST" (some "sftp.example.com") none =
      Except.ok (JsVal.str "sftp.example.com") ∧
    getEnv "STP_SFTP_PORT" (some "") (some (JsVal.num 22)) = Except.ok (JsVal.num 22) ∧
    getEnv "STP_S3_BUCKET" none none = Except.error ("Please set " ++ "STP_S3_BUCKET" ++ ".") :=
  ⟨(c10_getEnv_contract "STP_SFTP_HOST" "sftp.example.com" (some "") none (JsVal.num 22)
      (by decide) rfl (by decide)).1,
   (c10_getEnv_contract "STP_SFTP_PORT" "x" (some "") none (JsVal.num 22)
      (by decide) rfl (by decide)).2.2.1,
   (c10_getEnv_contract "STP_S3_BUCKET" "x" none none (JsVal.num 22)
      (by decide) rfl (by decide)).2.2.2.2 rfl⟩
